import Mathlib

/-!
Verification development for the QtMultiThreadNetwork request orchestrator
(`src/src/networkmanager.cpp`).  The C++ class `NetworkManagerPrivate` together
with the public `NetworkManager` slots is shallowly embedded below: each QMap
member becomes an association list over `Nat` keys, `qint64` values become
`Int` with explicit 64-bit conversions where the source converts between
`qint64` and `quint64`, and every outbound notification (events posted to
`NetworkReply` objects, emitted signals, thread quit requests) is made explicit
in the return value of the embedded operation.
-/

namespace NetMgr

/-- 2^64, the modulus of Qt's `quint64`. -/
def U64MOD : Nat := 18446744073709551616

/-- 2^63, the signed/unsigned boundary of `qint64`. -/
def S63 : Nat := 9223372036854775808

/-- Conversion `qint64 -> quint64` (C++ implementation-defined-free: value mod 2^64). -/
def toU64 (i : Int) : Nat := (i % (U64MOD : Int)).toNat

/-- Conversion `quint64 -> qint64` (two's complement reinterpretation). -/
def toS64 (n : Nat) : Int :=
  let m := n % U64MOD
  if m < S63 then (m : Int) else (m : Int) - (U64MOD : Int)

/-- `QMap<quint64, a>` modelled as an association list keyed by `Nat`. -/
abbrev QMapN (α : Type) := List (Nat × α)

/-- `QMap::contains`. -/
def qcontains {α : Type} (m : QMapN α) (k : Nat) : Bool :=
  m.any (fun p => p.1 == k)

/-- `QMap::value(k, d)`; `QMap::value(k)` is this with the type's default value.
Does not mutate the map. -/
def qvalueD {α : Type} (m : QMapN α) (k : Nat) (d : α) : α :=
  match m.find? (fun p => p.1 == k) with
  | some p => p.2
  | none => d

/-- `QMap::insert` / assignment through `operator[]`: replace the value at `k`
when present, otherwise add the entry. -/
def qinsert {α : Type} (m : QMapN α) (k : Nat) (v : α) : QMapN α :=
  if qcontains m k then m.map (fun p => if p.1 == k then (k, v) else p)
  else m ++ [(k, v)]

/-- `QMap::remove` / `QMap::take` (the removal part). -/
def qremove {α : Type} (m : QMapN α) (k : Nat) : QMapN α :=
  m.filter (fun p => p.1 != k)

/-- The key set of a map, in entry order. -/
def qkeys {α : Type} (m : QMapN α) : List Nat := m.map (·.1)

/-- The greatest key of the map: `QMap` iterates in ascending key order, so
`QMap::last()` is the value stored under this key. -/
def qlastKey? {α : Type} : QMapN α → Option Nat
  | [] => none
  | p :: t =>
    match qlastKey? t with
    | none => some p.1
    | some k => some (max p.1 k)

/-- One network task (`RequestTask`).  Modelled from the spec: the struct is
declared in `NetworkManager.h`, which is not part of the provided sources; the
fields are the Task attributes of spec section 3 (request id, batch id, target
locator, success flag, result payload, retry flag, abort-batch flag), with the
locator reduced to its validity (`QUrl::isValid`), which is all
`networkmanager.cpp` inspects. -/
structure RequestTask where
  uiId : Nat := 0
  uiBatchId : Nat := 0
  urlValid : Bool := false
  bSuccess : Bool := false
  bTryAgainWhileFailed : Bool := false
  bAbortBatchWhileOneFailed : Bool := false
  bytesContent : String := ""
  deriving Repr, DecidableEq

/-- Destination of a posted `ReplyResultEvent`: a single-task reply handle
(keyed by request id in `m_mapReply`) or a batch reply handle (keyed by batch
id in `m_mapBatchReply`). -/
inductive ReplyTarget where
  | single (uiId : Nat)
  | batch (uiBatchId : Nat)
  deriving Repr, DecidableEq

/-- A `ReplyResultEvent` posted to a reply handle. -/
structure ReplyEvent where
  target : ReplyTarget
  request : RequestTask
  bDestroyed : Bool
  deriving Repr, DecidableEq

/-- The mutable state of `NetworkManagerPrivate`, together with the static id
counters.  Reply handles carry no data the core inspects, so both reply maps
store `Unit`; the thread map stores the task the thread was built from
(`NetworkRequestThread::getTask`, `::batchId`, `::requsetId` read it back). -/
structure NMState where
  msRequestId : Nat := 0
  msBatchId : Nat := 0
  stopAllFlag : Bool := false
  mapRequestThread : QMapN RequestTask := []
  mapReply : QMapN Unit := []
  mapBatchReply : QMapN Unit := []
  queWaiting : List RequestTask := []
  queFailed : QMapN RequestTask := []
  mapBatchTotalSize : QMapN Int := []
  mapBatchFinishedSize : QMapN Int := []
  mapBatchDownloadCurrentBytes : QMapN (QMapN Int) := []
  mapBatchDownloadTotalBytes : QMapN Int := []
  mapBatchUploadCurrentBytes : QMapN (QMapN Int) := []
  mapBatchUploadTotalBytes : QMapN Int := []
  deriving Repr, DecidableEq

/-- `NetworkManagerPrivate::isStopAll`. -/
def isStopAll (s : NMState) : Bool := s.stopAllFlag

/-- `NetworkManagerPrivate::resetStopAllFlag`. -/
def resetStopAllFlag (s : NMState) : NMState :=
  if s.stopAllFlag then { s with stopAllFlag := false } else s

/-- `NetworkManagerPrivate::updateBatchProgress`.  Returns the `qint64` result
and the successor state.  The source reads the previous running total with
`value(ms_uiBatchId)` — the static batch-id counter — in both directions
(lines 547 and 567), while storing the new total under the parameter
`uiBatchId`; the embedding reproduces that read faithfully.  The `iBytes == 0`
branch returns `m_mapBatch*TotalBytes[uiBatchId]` through `QMap::operator[]`,
which default-inserts a `0` entry when the key is absent. -/
def updateBatchProgress (s : NMState) (uiRequestId uiBatchId : Nat)
    (iBytes : Int) (bDownload : Bool) : Int × NMState :=
  if iBytes = 0 then
    if bDownload then
      if qcontains s.mapBatchDownloadTotalBytes uiBatchId then
        (qvalueD s.mapBatchDownloadTotalBytes uiBatchId 0, s)
      else
        (0, { s with mapBatchDownloadTotalBytes :=
                s.mapBatchDownloadTotalBytes ++ [(uiBatchId, 0)] })
    else
      if qcontains s.mapBatchUploadTotalBytes uiBatchId then
        (qvalueD s.mapBatchUploadTotalBytes uiBatchId 0, s)
      else
        (0, { s with mapBatchUploadTotalBytes :=
                s.mapBatchUploadTotalBytes ++ [(uiBatchId, 0)] })
  else
    if bDownload then
      let mapReqId2Bytes := qvalueD s.mapBatchDownloadCurrentBytes uiBatchId []
      let uiIncreased : Nat :=
        if qcontains mapReqId2Bytes uiRequestId then
          if iBytes > qvalueD mapReqId2Bytes uiRequestId 0 then
            (iBytes - qvalueD mapReqId2Bytes uiRequestId 0).toNat
          else 0
        else toU64 iBytes
      let mapReqId2Bytes := qinsert mapReqId2Bytes uiRequestId iBytes
      let uiTotalBytes : Nat :=
        (toU64 (qvalueD s.mapBatchDownloadTotalBytes s.msBatchId 0) + uiIncreased) % U64MOD
      (toS64 uiTotalBytes,
        { s with
          mapBatchDownloadCurrentBytes :=
            qinsert s.mapBatchDownloadCurrentBytes uiBatchId mapReqId2Bytes
          mapBatchDownloadTotalBytes :=
            qinsert s.mapBatchDownloadTotalBytes uiBatchId (toS64 uiTotalBytes) })
    else
      let mapReqId2Bytes := qvalueD s.mapBatchUploadCurrentBytes uiBatchId []
      let uiIncreased : Nat :=
        if qcontains mapReqId2Bytes uiRequestId then
          if iBytes > qvalueD mapReqId2Bytes uiRequestId 0 then
            (iBytes - qvalueD mapReqId2Bytes uiRequestId 0).toNat
          else 0
        else toU64 iBytes
      let mapReqId2Bytes := qinsert mapReqId2Bytes uiRequestId iBytes
      let uiTotalBytes : Nat :=
        (toU64 (qvalueD s.mapBatchUploadTotalBytes s.msBatchId 0) + uiIncreased) % U64MOD
      (toS64 uiTotalBytes,
        { s with
          mapBatchUploadCurrentBytes :=
            qinsert s.mapBatchUploadCurrentBytes uiBatchId mapReqId2Bytes
          mapBatchUploadTotalBytes :=
            qinsert s.mapBatchUploadTotalBytes uiBatchId (toS64 uiTotalBytes) })

/-- The cancellation payload built by `stopAllRequest`: a default-constructed
`RequestTask` with `uiId = 0xFFFF`, `bSuccess = false` and the cancellation
message. -/
def stopAllCancelTask : RequestTask :=
  { uiId := 65535, bSuccess := false,
    bytesContent := "Operation canceled (All Request)" }

/-- `NetworkManagerPrivate::stopAllRequest`.  Returns the successor state, the
posted `ReplyResultEvent`s, and the ids of the threads asked to quit.  The one
cancellation event goes to `m_mapReply.last()`, the reply stored under the
greatest request id, and only when the single-task reply map is non-empty. -/
def stopAllRequest (s : NMState) : NMState × List ReplyEvent × List Nat :=
  if s.stopAllFlag then (s, [], [])
  else
    let quits := qkeys s.mapRequestThread
    let events : List ReplyEvent :=
      match qlastKey? s.mapReply with
      | none => []
      | some k => [⟨ReplyTarget.single k, stopAllCancelTask, true⟩]
    ({ s with
        stopAllFlag := true
        mapRequestThread := []
        mapReply := []
        mapBatchReply := []
        queWaiting := []
        queFailed := []
        mapBatchTotalSize := []
        mapBatchFinishedSize := []
        mapBatchDownloadCurrentBytes := []
        mapBatchDownloadTotalBytes := []
        mapBatchUploadCurrentBytes := []
        mapBatchUploadTotalBytes := [] },
     events, quits)

/-- The wait-queue scan of `NetworkManagerPrivate::stopRequest` (lines
237-250).  Walks the queue until the first entry with the given id, erases it,
and then reads through the iterator returned by `erase` — the element that
followed the erased one.  Result: the queue after the scan, and `none` when no
entry matched, `some r` when one matched, where `r` is the post-erase read:
`none` exactly when the erased entry was the last element, the case in which
the source dereferences the end iterator. -/
def stopRequestQueueScan (que : List RequestTask) (uiTaskId : Nat) :
    List RequestTask × Option (Option RequestTask) :=
  match que with
  | [] => ([], none)
  | h :: t =>
    if h.uiId == uiTaskId then (t, some t.head?)
    else
      let r := stopRequestQueueScan t uiTaskId
      (h :: r.1, r.2)

/-- `NetworkManagerPrivate::stopRequest`.  Returns `none` when the source
would dereference the end iterator (the matched wait-queue entry was the last
element); otherwise the successor state, the posted events, and the thread
quit signals. -/
def stopRequest (s : NMState) (uiTaskId : Nat) :
    Option (NMState × List ReplyEvent × List Nat) :=
  let hasThread := qcontains s.mapRequestThread uiTaskId
  let task0 : RequestTask :=
    if hasThread then qvalueD s.mapRequestThread uiTaskId {} else {}
  let threads :=
    if hasThread then qremove s.mapRequestThread uiTaskId else s.mapRequestThread
  let quits : List Nat := if hasThread then [uiTaskId] else []
  let scan := stopRequestQueueScan s.queWaiting uiTaskId
  let task1? : Option RequestTask :=
    match scan.2 with
    | none => some task0
    | some none => none
    | some (some tk) => some tk
  match task1? with
  | none => none
  | some task1 =>
    let hasReply := qcontains s.mapReply uiTaskId
    let events : List ReplyEvent :=
      if hasReply then
        [⟨ReplyTarget.single uiTaskId,
          { task1 with
            uiId := uiTaskId
            bSuccess := false
            bytesContent :=
              "Operation canceled (Request id: " ++ toString uiTaskId ++ ")" },
          true⟩]
      else []
    some ({ s with
            mapRequestThread := threads
            queWaiting := scan.1
            queFailed := qremove s.queFailed uiTaskId
            mapReply := qremove s.mapReply uiTaskId },
          events, quits)

/-- `NetworkManagerPrivate::stopBatchRequests`: quit and drop every thread of
the batch, erase the batch's wait-queue entries, deliver one destroying
cancellation to the batch reply when still registered, and remove all six
ledger entries of the batch. -/
def stopBatchRequests (s : NMState) (uiBatchId : Nat) :
    NMState × List ReplyEvent × List Nat :=
  let quits := (s.mapRequestThread.filter (fun p => p.2.uiBatchId == uiBatchId)).map (·.1)
  let threads := s.mapRequestThread.filter (fun p => !(p.2.uiBatchId == uiBatchId))
  let waiting := s.queWaiting.filter (fun tk => !(tk.uiBatchId == uiBatchId))
  let hasReply := qcontains s.mapBatchReply uiBatchId
  let events : List ReplyEvent :=
    if hasReply then
      [⟨ReplyTarget.batch uiBatchId,
        { uiBatchId := uiBatchId, bSuccess := false,
          bytesContent :=
            "Operation canceled (Batch id: " ++ toString uiBatchId ++ ")" },
        true⟩]
    else []
  ({ s with
      mapRequestThread := threads
      queWaiting := waiting
      mapBatchReply := qremove s.mapBatchReply uiBatchId
      mapBatchTotalSize := qremove s.mapBatchTotalSize uiBatchId
      mapBatchFinishedSize := qremove s.mapBatchFinishedSize uiBatchId
      mapBatchDownloadCurrentBytes := qremove s.mapBatchDownloadCurrentBytes uiBatchId
      mapBatchDownloadTotalBytes := qremove s.mapBatchDownloadTotalBytes uiBatchId
      mapBatchUploadCurrentBytes := qremove s.mapBatchUploadCurrentBytes uiBatchId
      mapBatchUploadTotalBytes := qremove s.mapBatchUploadTotalBytes uiBatchId },
   events, quits)

/-- `NetworkManagerPrivate::addToFailedQueue`: insert iff the id is not yet
present; the returned flag reports whether the insertion happened. -/
def addToFailedQueue (s : NMState) (request : RequestTask) : Bool × NMState :=
  if qcontains s.queFailed request.uiId then (false, s)
  else (true, { s with queFailed := qinsert s.queFailed request.uiId request })

/-- `NetworkManagerPrivate::addToWaitQueue`. -/
def addToWaitQueue (s : NMState) (request : RequestTask) : NMState :=
  { s with queWaiting := s.queWaiting ++ [request] }

/-- `NetworkManagerPrivate::addRequest`: validate the locator; on success
allocate a fresh request id (`++ms_uiRequestId`), create a reply handle, and
register it in `m_mapReply`.  Returns the reply key (`none` on invalid
locator). -/
def addRequestP (s : NMState) (urlValid : Bool) : Option Nat × NMState :=
  if urlValid then
    let uiId := s.msRequestId + 1
    (some uiId,
     { s with msRequestId := uiId, mapReply := qinsert s.mapReply uiId () })
  else (none, s)

/-- `NetworkManager::addRequest`.  `threadAvailable` models
`activeThreadCount() < maxThreadCount()` on the external pool, and
`tryStartOk` the success of `QThreadPool::tryStart` inside
`NetworkManager::startRequest` (on `tryStart` failure the task is pushed back
onto the wait queue).  Returns the reply key (`none` on validation failure),
the request as mutated through the reference parameter, and the successor
state. -/
def NMaddRequest (s : NMState) (request : RequestTask)
    (threadAvailable tryStartOk : Bool) : Option Nat × RequestTask × NMState :=
  let s0 := resetStopAllFlag s
  match addRequestP s0 request.urlValid with
  | (none, s1) => (none, request, s1)
  | (some uiId, s1) =>
    let request := { request with uiId := uiId }
    if threadAvailable && s1.queWaiting.isEmpty then
      if tryStartOk then
        (some uiId, request,
         { s1 with mapRequestThread := qinsert s1.mapRequestThread uiId request })
      else
        (some uiId, request, addToWaitQueue s1 request)
    else
      (some uiId, request, addToWaitQueue s1 request)

/-- `NetworkManagerPrivate::addBatchRequest`: allocate a batch id, record the
task count, register the batch reply, and enqueue every task stamped with the
batch id and a fresh request id. -/
def addBatchRequestP (s : NMState) (tasks : List RequestTask) : Nat × NMState :=
  let uiBatchId := s.msBatchId + 1
  let s1 := { s with
      msBatchId := uiBatchId
      mapBatchTotalSize := qinsert s.mapBatchTotalSize uiBatchId (tasks.length : Int)
      mapBatchReply := qinsert s.mapBatchReply uiBatchId () }
  let s2 := tasks.foldl (fun st tk =>
    let uiId := st.msRequestId + 1
    addToWaitQueue { st with msRequestId := uiId }
      { tk with uiBatchId := uiBatchId, uiId := uiId }) s1
  (uiBatchId, s2)

/-- `NetworkManagerPrivate::initialize`: the pool capacity right after
startup, as a function of `QThread::idealThreadCount()` (which is `-1` when
the core count cannot be detected). -/
def initializeCapacity (nIdeal : Int) : Int :=
  if nIdeal ≠ -1 then nIdeal else 4

/-- `NetworkManagerPrivate::setMaxThreadCount`: success flag and resulting
capacity (the pool pointer is always non-null, being created in the
constructor and destroyed only with the object). -/
def setMaxThreadCount (cap : Int) (nMax : Int) : Bool × Int :=
  if 1 ≤ nMax ∧ nMax ≤ 8 then (true, nMax) else (false, cap)

/-- The progress signals `NetworkManager::updateProgress` can emit; the batch
signals carry the `quint64` conversion of `updateBatchProgress`'s `qint64`
result. -/
inductive ProgressSignal where
  | download (uiId : Nat) (iBytes iTotalBytes : Int)
  | upload (uiId : Nat) (iBytes iTotalBytes : Int)
  | batchDownload (uiBatchId : Nat) (uiBytes : Nat)
  | batchUpload (uiBatchId : Nat) (uiBytes : Nat)
  deriving Repr, DecidableEq

/-- `NetworkManager::updateProgress`. -/
def updateProgress (s : NMState) (uiTargetId uiBatchId : Nat)
    (iBytes iTotalBytes : Int) (bDownload : Bool) : NMState × List ProgressSignal :=
  if iBytes = 0 ∨ iTotalBytes = 0 then (s, [])
  else if uiBatchId == 0 then
    if bDownload then (s, [.download uiTargetId iBytes iTotalBytes])
    else (s, [.upload uiTargetId iBytes iTotalBytes])
  else
    let r := updateBatchProgress s uiTargetId uiBatchId iBytes bDownload
    if bDownload then (r.2, [.batchDownload uiBatchId (toU64 r.1)])
    else (r.2, [.batchUpload uiBatchId (toU64 r.1)])

/-- `NetworkManagerPrivate::killRequestThread`. -/
def killRequestThread (s : NMState) (uiRequestId : Nat) :
    Bool × NMState × List Nat :=
  if qcontains s.mapRequestThread uiRequestId then
    (true, { s with mapRequestThread := qremove s.mapRequestThread uiRequestId },
     [uiRequestId])
  else (false, s, [])

/-- The observable outcome of one `NetworkManager::onRequestFinished` run:
successor state, the reply notifications delivered (in order), the thread
quit signals, and the batch ids for which `batchRequestFinished` was emitted. -/
structure FinishOut where
  state : NMState
  events : List ReplyEvent
  quits : List Nat
  batchFinishedSignals : List Nat
  deriving Repr, DecidableEq

/-- Step 2 of `NetworkManager::onRequestFinished` (the `if (bNotify)` block):
look up the destination reply handle and destroying-ness, removing the handle
when the delivery is destroying, maintaining the batch finished counter, and
emitting `batchRequestFinished` when the batch completes.  Returns the
successor state, the delivered events, and the batch-complete signals. -/
def finishNotify (s1 : NMState) (request : RequestTask) (bNotify : Bool) :
    NMState × List ReplyEvent × List Nat :=
  if bNotify then
    if request.uiBatchId == 0 then
      if qcontains s1.mapReply request.uiId then
        ({ s1 with mapReply := qremove s1.mapReply request.uiId },
         [⟨ReplyTarget.single request.uiId, request, true⟩], [])
      else (s1, [], [])
    else
      if request.bSuccess then
        let sizeFinished := qvalueD s1.mapBatchFinishedSize request.uiBatchId 0 + 1
        let s1a := { s1 with
          mapBatchFinishedSize :=
            qinsert s1.mapBatchFinishedSize request.uiBatchId sizeFinished }
        let sizeTotal := qvalueD s1a.mapBatchTotalSize request.uiBatchId 0
        if sizeFinished = sizeTotal then
          let s1b := { s1a with
            mapBatchTotalSize := qremove s1a.mapBatchTotalSize request.uiBatchId
            mapBatchFinishedSize := qremove s1a.mapBatchFinishedSize request.uiBatchId }
          if qcontains s1b.mapBatchReply request.uiBatchId then
            ({ s1b with mapBatchReply := qremove s1b.mapBatchReply request.uiBatchId },
             [⟨ReplyTarget.batch request.uiBatchId, request, true⟩],
             [request.uiBatchId])
          else (s1b, [], [request.uiBatchId])
        else
          if qcontains s1a.mapBatchReply request.uiBatchId then
            (s1a, [⟨ReplyTarget.batch request.uiBatchId, request, false⟩], [])
          else (s1a, [], [])
      else
        let bDestroyed := request.bAbortBatchWhileOneFailed
        if qcontains s1.mapBatchReply request.uiBatchId then
          (if bDestroyed then
             { s1 with mapBatchReply := qremove s1.mapBatchReply request.uiBatchId }
           else s1,
           [⟨ReplyTarget.batch request.uiBatchId, request, bDestroyed⟩], [])
        else (s1, [], [])
  else (s1, [], [])

/-- `NetworkManager::onRequestFinished`, steps 1-4 of the source: the
stop-all/validity guard, the failure/retry handling, the notification routing
(`finishNotify`), the abort-batch stop, and the thread kill.  The trailing
`startNextRequest()` dispatch (step 5) is a separate transition: it is driven
by the external thread pool's `activeThreadCount` and does not belong to the
completion bookkeeping itself. -/
def onRequestFinished (s : NMState) (request : RequestTask) : FinishOut :=
  if s.stopAllFlag || request.uiId == 0 then ⟨s, [], [], []⟩
  else
    let retried := !request.bSuccess && request.bTryAgainWhileFailed
        && !(qcontains s.queFailed request.uiId)
    let s1 :=
      if retried then
        addToWaitQueue
          { s with queFailed := qinsert s.queFailed request.uiId request } request
      else s
    let bNotify := request.bSuccess || !retried
    let step2 := finishNotify s1 request bNotify
    let step3 : NMState × List ReplyEvent × List Nat :=
      if !(request.uiBatchId == 0) && !request.bSuccess
          && request.bAbortBatchWhileOneFailed then
        stopBatchRequests step2.1 request.uiBatchId
      else (step2.1, [], [])
    let step4 := killRequestThread step3.1 request.uiId
    ⟨step4.2.1, step2.2.1 ++ step3.2.1, step3.2.2 ++ step4.2.2, step2.2.2⟩

/-! Facts about the `QMap` model used by the claim proofs. -/

theorem qcontains_qremove_self {α : Type} (m : QMapN α) (k : Nat) :
    qcontains (qremove m k) k = false := by
  induction m with
  | nil => rfl
  | cons p t ih =>
    by_cases h : p.1 = k
    · have hb : (p.1 != k) = false := by simp [h]
      simp only [qremove, List.filter_cons, hb, Bool.false_eq_true, if_false]
      exact ih
    · have hb : (p.1 != k) = true := by simp [h]
      have hbeq : (p.1 == k) = false := by simp [h]
      simp only [qremove, List.filter_cons, hb, if_true]
      simp only [qcontains, List.any_cons, hbeq, Bool.false_or]
      exact ih

theorem qcontains_qinsert_self {α : Type} (m : QMapN α) (k : Nat) (v : α) :
    qcontains (qinsert m k v) k = true := by
  induction m with
  | nil => simp [qinsert, qcontains]
  | cons p t ih =>
    by_cases h : p.1 = k
    · have hbeq : (p.1 == k) = true := by simpa using h
      simp [qinsert, qcontains, hbeq, h]
    · have hbeq : (p.1 == k) = false := by simpa using h
      by_cases h2 : qcontains t k = true
      · simp only [qinsert, qcontains] at h2 ih ⊢
        simpa [hbeq, h2, h] using ih
      · simp only [Bool.not_eq_true] at h2
        simp only [qinsert, qcontains] at h2 ih ⊢
        simp [hbeq, h2, h]

theorem qvalueD_qinsert_self {α : Type} (m : QMapN α) (k : Nat) (v d : α) :
    qvalueD (qinsert m k v) k d = v := by
  induction m with
  | nil => simp [qinsert, qcontains, qvalueD]
  | cons p t ih =>
    by_cases h : p.1 = k
    · have hbeq : (p.1 == k) = true := by simpa using h
      simp [qinsert, qcontains, qvalueD, hbeq, h]
    · have hbeq : (p.1 == k) = false := by simpa using h
      by_cases h2 : qcontains t k = true
      · simp only [qinsert, qcontains] at h2 ih ⊢
        simpa [hbeq, h2, h, qvalueD] using ih
      · simp only [Bool.not_eq_true] at h2
        simp only [qinsert, qcontains] at h2 ih ⊢
        simpa [hbeq, h2, h, qvalueD] using ih

theorem qlastKey?_contains {α : Type} (m : QMapN α) (k : Nat)
    (h : qlastKey? m = some k) : qcontains m k = true := by
  induction m generalizing k with
  | nil => simp [qlastKey?] at h
  | cons p t ih =>
    rw [qlastKey?] at h
    cases h2 : qlastKey? (α := α) t with
    | none =>
      rw [h2] at h
      simp only [Option.some.injEq] at h
      simp [qcontains, h]
    | some k2 =>
      rw [h2] at h
      simp only [Option.some.injEq] at h
      rcases max_choice p.1 k2 with hm | hm
      · simp [qcontains, ← h, hm]
      · have := ih k2 h2
        simp only [← h, hm]
        simp [qcontains] at this ⊢
        exact Or.inr this

theorem qlastKey?_isSome {α : Type} (m : QMapN α) (h : m ≠ []) :
    ∃ k, qlastKey? m = some k := by
  cases m with
  | nil => exact absurd rfl h
  | cons p t =>
    rw [qlastKey?]
    cases qlastKey? (α := α) t with
    | none => exact ⟨p.1, rfl⟩
    | some k2 => exact ⟨max p.1 k2, rfl⟩

theorem resetStopAllFlag_flag (s : NMState) :
    (resetStopAllFlag s).stopAllFlag = false := by
  by_cases h : s.stopAllFlag = true
  · simp [resetStopAllFlag, h]
  · simp only [Bool.not_eq_true] at h
    simp [resetStopAllFlag, h]

theorem resetStopAllFlag_eq (s : NMState) :
    resetStopAllFlag s = { s with stopAllFlag := false } := by
  cases s with
  | mk a b flag c d e f g h i j k l m =>
    by_cases hf : flag = true
    · simp [resetStopAllFlag, hf]
    · simp only [Bool.not_eq_true] at hf
      simp [resetStopAllFlag, hf]

/-- The per-direction per-task byte map selected by `bDownload`
(`m_mapBatchDownloadCurrentBytes` / `m_mapBatchUploadCurrentBytes`). -/
def dirCurrents (s : NMState) (bDownload : Bool) : QMapN (QMapN Int) :=
  if bDownload then s.mapBatchDownloadCurrentBytes else s.mapBatchUploadCurrentBytes

/-- The per-direction running-total map selected by `bDownload`
(`m_mapBatchDownloadTotalBytes` / `m_mapBatchUploadTotalBytes`). -/
def dirTotals (s : NMState) (bDownload : Bool) : QMapN Int :=
  if bDownload then s.mapBatchDownloadTotalBytes else s.mapBatchUploadTotalBytes

/-! Concrete inputs used by the evaluation theorems below. -/

/-- Two batches have been allocated (`ms_uiBatchId = 2`); batch 1 already has
a download running total of 100 bytes. -/
def crossBatchState : NMState :=
  { msBatchId := 2, mapBatchDownloadTotalBytes := [(1, 100)] }

/-- The default-constructed manager state. -/
def emptyState : NMState := {}

/-- One allocated batch (`ms_uiBatchId = 1`), so the batch-total read under
`ms_uiBatchId` coincides with the report's batch id. -/
def singleBatchState : NMState := { msBatchId := 1 }

/-- State after a download progress report of 100 cumulative bytes for task 1
of batch 1. -/
def reportChain1 : NMState := (updateBatchProgress singleBatchState 1 1 100 true).2

/-- State after a further (decreasing) report of 80 cumulative bytes. -/
def reportChain2 : NMState := (updateBatchProgress reportChain1 1 1 80 true).2

/-- State after a final report of 90 cumulative bytes. -/
def reportChain3 : NMState := (updateBatchProgress reportChain2 1 1 90 true).2

/-- A one-task batch (total size 1, no finished tasks yet) whose reply handle
is registered and which has a download running total of 100 bytes. -/
def completeBatchState : NMState :=
  { mapBatchTotalSize := [(1, 1)], mapBatchReply := [(1, ())],
    mapBatchDownloadTotalBytes := [(1, 100)] }

/-- The successful completion of the single member of that batch. -/
def completeBatchTask : RequestTask := { uiId := 3, uiBatchId := 1, bSuccess := true }

/-- A state in which batch 1's reply handle is registered. -/
def retryAbortState : NMState := { mapBatchReply := [(1, ())] }

/-- A batch-1 member failing for the first time with both the retry and the
abort-batch flags set. -/
def retryAbortTask : RequestTask :=
  { uiId := 2, uiBatchId := 1, bSuccess := false,
    bTryAgainWhileFailed := true, bAbortBatchWhileOneFailed := true }

/-- A wait-queue entry with request id 5. -/
def soleQueuedTask : RequestTask := { uiId := 5 }

/-- A wait-queue entry with request id 7. -/
def followupTask : RequestTask := { uiId := 7 }

/-- A state whose wait queue holds exactly the task with id 5. -/
def soleQueueState : NMState := { queWaiting := [soleQueuedTask] }

/-- A state with a set stop flag, two registered single-task replies, one
running thread, one queued task, one failed-registry entry and one batch
ledger entry. -/
def busyState : NMState :=
  { msRequestId := 9, stopAllFlag := false,
    mapRequestThread := [(3, soleQueuedTask)], mapReply := [(3, ()), (9, ())],
    mapBatchReply := [(1, ())], queWaiting := [followupTask],
    queFailed := [(5, soleQueuedTask)], mapBatchTotalSize := [(1, 2)],
    mapBatchDownloadTotalBytes := [(1, 40)] }

/-- A submission whose target locator is invalid. -/
def invalidTask : RequestTask := { urlValid := false }

/-! Claim theorems. -/

/-- C1 (code_bug evaluation): with two batches allocated (`ms_uiBatchId = 2`)
and batch 1 holding a download running total of 100 bytes, a fresh 50-byte
download report for task 7 of batch 1 yields 50 — the delta added to batch
2's (empty) total, because lines 547/567 read
`m_mapBatchDownloadTotalBytes.value(ms_uiBatchId)` instead of
`.value(uiBatchId)` — while the claim's described behaviour would yield
100 + 50 = 150. -/
theorem updateBatchProgress_cross_batch_eval :
    (updateBatchProgress crossBatchState 7 1 50 true).1 = 50 ∧
    qvalueD (updateBatchProgress crossBatchState 7 1 50 true).2.mapBatchDownloadTotalBytes 1 0 = 50 ∧
    qvalueD crossBatchState.mapBatchDownloadTotalBytes 1 0 + 50 = 150 := by
  refine ⟨?_, ?_, ?_⟩ <;> decide

/-- C2 (counterexample): when the single member of a one-task batch succeeds,
`onRequestFinished` fires the batch-complete signal and the destroying batch
delivery, but the batch's download running-total ledger entry is still present
afterwards — contradicting the claim that all ledger entries are absent after
the batch-complete delivery. -/
theorem batchComplete_byte_ledger_persists_cx :
    qvalueD completeBatchState.mapBatchFinishedSize 1 0 + 1
      = qvalueD completeBatchState.mapBatchTotalSize 1 0 ∧
    (onRequestFinished completeBatchState completeBatchTask).batchFinishedSignals = [1] ∧
    (onRequestFinished completeBatchState completeBatchTask).events
      = [⟨ReplyTarget.batch 1, completeBatchTask, true⟩] ∧
    qcontains (onRequestFinished completeBatchState completeBatchTask).state.mapBatchDownloadTotalBytes 1
      = true := by
  refine ⟨?_, ?_, ?_, ?_⟩ <;> decide

/-- C3 (counterexample): a batch task failing for the first time with both
the retry flag and the abort-batch flag set is recorded in the Failed-Once
Registry, but the batch-abort step then removes it from the wait queue again
and delivers a destroying cancellation to the batch reply handle — so the
claimed "re-enqueued with no caller notification" fails. -/
theorem retry_abort_notifies_cx :
    retryAbortTask.bSuccess = false ∧
    retryAbortTask.bTryAgainWhileFailed = true ∧
    qcontains retryAbortState.queFailed retryAbortTask.uiId = false ∧
    qcontains (onRequestFinished retryAbortState retryAbortTask).state.queFailed retryAbortTask.uiId = true ∧
    (onRequestFinished retryAbortState retryAbortTask).state.queWaiting = [] ∧
    (onRequestFinished retryAbortState retryAbortTask).events ≠ [] := by
  refine ⟨?_, ?_, ?_, ?_, ?_, ?_⟩ <;> decide

/-- C4 (counterexample): for a single task of the sole batch, the report
sequence 100, 80, 90 leaves the batch download aggregate at 110 while the
task's last-recorded cumulative value is 90 and its largest reported value is
100 — the aggregate equals neither, refuting "batch aggregate equals the sum
of each member task's latest non-decreasing cumulative value". -/
theorem aggregate_exceeds_member_values_cx :
    qvalueD reportChain3.mapBatchDownloadTotalBytes 1 0 = 110 ∧
    qvalueD (qvalueD reportChain3.mapBatchDownloadCurrentBytes 1 []) 1 0 = 90 ∧
    (110 : Int) ≠ 90 ∧ (110 : Int) ≠ 100 := by
  refine ⟨?_, ?_, ?_, ?_⟩ <;> decide

/-- C6 (counterexample): on a 16-core host `QThread::idealThreadCount()`
returns 16 and `initialize` sets the pool capacity to it, outside the claimed
range [1,8]. -/
theorem initialize_capacity_out_of_range_cx :
    initializeCapacity 16 = 16 ∧ ¬(initializeCapacity 16 ≤ 8) := by
  refine ⟨?_, ?_⟩ <;> decide

/-- C8 (counterexample): on a fresh state a 0-byte download report for batch 1
answers 0 but default-inserts a `(1, 0)` entry into the download running-total
map through `QMap::operator[]` — the state is mutated and a ledger entry is
created, contradicting the claimed no-op query. -/
theorem zero_report_creates_entry_cx :
    (updateBatchProgress emptyState 1 1 0 true).1 = 0 ∧
    (updateBatchProgress emptyState 1 1 0 true).2.mapBatchDownloadTotalBytes = [(1, 0)] ∧
    (updateBatchProgress emptyState 1 1 0 true).2 ≠ emptyState := by
  refine ⟨?_, ?_, ?_⟩ <;> decide

/-- C10 (counterexample): when the only wait-queue entry matches the stopped
id, the scan of `stopRequest` erases it and the subsequent read through the
returned iterator is out of bounds: the match is found (outer `some`) but the
read is `none`, and the embedded `stopRequest` reports the end-iterator
dereference by returning `none`.  This refutes the claim that the post-erase
read is always in bounds. -/
theorem stopRequest_scan_out_of_bounds_cx :
    stopRequestQueueScan [soleQueuedTask] 5 = ([], some none) ∧
    stopRequest soleQueueState 5 = none := by
  refine ⟨?_, ?_⟩ <;> decide

/-- C6 (amended): `setMaxThreadCount(n)` succeeds and sets the capacity to
`n` exactly when `1 ≤ n ≤ 8`, and fails leaving the capacity unchanged
otherwise; initialization, however, sets the capacity to the detected
hardware concurrency whenever detection succeeds — a value that may lie
outside [1,8] — and to the in-range fallback 4 only when detection fails. -/
theorem setMaxThreadCount_range_spec (cap nMax : Int) :
    ((setMaxThreadCount cap nMax).1 = true ↔ 1 ≤ nMax ∧ nMax ≤ 8) ∧
    (1 ≤ nMax ∧ nMax ≤ 8 → setMaxThreadCount cap nMax = (true, nMax)) ∧
    (¬(1 ≤ nMax ∧ nMax ≤ 8) → setMaxThreadCount cap nMax = (false, cap)) ∧
    initializeCapacity (-1) = 4 ∧
    (nMax ≠ -1 → initializeCapacity nMax = nMax) := by
  refine ⟨?_, ?_, ?_, by decide, ?_⟩
  · by_cases h : 1 ≤ nMax ∧ nMax ≤ 8 <;> simp [setMaxThreadCount, h]
  · intro h; simp [setMaxThreadCount, h]
  · intro h; simp [setMaxThreadCount, h]
  · intro h; simp [initializeCapacity, h]

/-- Witness for `setMaxThreadCount_range_spec` at capacity 3 and requests 5
(accepted) and 9 (rejected, capacity kept). -/
theorem setMaxThreadCount_range_spec_witness :
    ((1:Int) ≤ 5 ∧ (5:Int) ≤ 8) ∧ setMaxThreadCount 3 5 = (true, 5) ∧
    (¬((1:Int) ≤ 9 ∧ (9:Int) ≤ 8)) ∧ setMaxThreadCount 3 9 = (false, 3) :=
  ⟨by decide, (setMaxThreadCount_range_spec 3 5).2.1 (by decide),
   by decide, (setMaxThreadCount_range_spec 3 9).2.2.1 (by decide)⟩

/-- C10 (amended): when `stopRequest` finds its first matching wait-queue
entry, the queue afterwards is the original queue with that entry erased, and
the post-erase read returns the element that followed the erased entry; the
read is out of bounds (`none` in this total embedding — an end-iterator
dereference in the source) exactly when the matched entry was the last
element of the queue. -/
theorem stopRequestQueueScan_spec (pre post : List RequestTask)
    (tk : RequestTask) (uiTaskId : Nat)
    (hpre : ∀ x ∈ pre, x.uiId ≠ uiTaskId) (htk : tk.uiId = uiTaskId) :
    stopRequestQueueScan (pre ++ tk :: post) uiTaskId
      = (pre ++ post, some post.head?) ∧
    ((stopRequestQueueScan (pre ++ tk :: post) uiTaskId).2 = some none ↔ post = []) := by
  have hmain : stopRequestQueueScan (pre ++ tk :: post) uiTaskId
      = (pre ++ post, some post.head?) := by
    induction pre with
    | nil =>
      have hb : (tk.uiId == uiTaskId) = true := by simpa using htk
      simp [stopRequestQueueScan, hb]
    | cons h t ih =>
      have hne : h.uiId ≠ uiTaskId := hpre h (by simp)
      have hb : (h.uiId == uiTaskId) = false := by simpa using hne
      have ih2 := ih (fun x hx => hpre x (by simp [hx]))
      simp [stopRequestQueueScan, hb, ih2]
  refine ⟨hmain, ?_⟩
  rw [hmain]
  simp [List.head?_eq_none_iff]

/-- Witness for `stopRequestQueueScan_spec`: stopping id 5 in the queue
`[task 5, task 7]` erases task 5 and the post-erase read returns task 7. -/
theorem stopRequestQueueScan_spec_witness :
    (∀ x ∈ ([] : List RequestTask), x.uiId ≠ 5) ∧ soleQueuedTask.uiId = 5 ∧
    stopRequestQueueScan ([] ++ soleQueuedTask :: [followupTask]) 5
      = ([] ++ [followupTask], some (some followupTask)) :=
  ⟨by simp, rfl,
   by simpa using
     (stopRequestQueueScan_spec [] [followupTask] soleQueuedTask 5 (by simp) rfl).1⟩

/-- C7 (confirmed): a single-task submission with an invalid locator returns
no reply handle, allocates no request id, and inserts nothing into the reply
map or the wait queue; the only state change is the stop-flag reset performed
unconditionally at the top of `NetworkManager::addRequest`. -/
theorem addRequest_invalid_locator_spec (s : NMState) (request : RequestTask)
    (threadAvailable tryStartOk : Bool) (h : request.urlValid = false) :
    NMaddRequest s request threadAvailable tryStartOk
      = (none, request, resetStopAllFlag s) ∧
    (NMaddRequest s request threadAvailable tryStartOk).1 = none ∧
    (NMaddRequest s request threadAvailable tryStartOk).2.2.msRequestId = s.msRequestId ∧
    (NMaddRequest s request threadAvailable tryStartOk).2.2.mapReply = s.mapReply ∧
    (NMaddRequest s request threadAvailable tryStartOk).2.2.queWaiting = s.queWaiting := by
  have hmain : NMaddRequest s request threadAvailable tryStartOk
      = (none, request, resetStopAllFlag s) := by
    simp [NMaddRequest, addRequestP, h]
  refine ⟨hmain, ?_, ?_, ?_, ?_⟩ <;> rw [hmain, resetStopAllFlag_eq]

/-- Witness for `addRequest_invalid_locator_spec` on a busy state. -/
theorem addRequest_invalid_locator_spec_witness :
    invalidTask.urlValid = false ∧
    NMaddRequest busyState invalidTask true false
      = (none, invalidTask, resetStopAllFlag busyState) :=
  ⟨rfl, (addRequest_invalid_locator_spec busyState invalidTask true false rfl).1⟩

/-- C9 (confirmed): every call to `NetworkManager::addRequest` — including a
rejected submission with an invalid locator — leaves the global stop flag
cleared, so `isStopAll()` returns false afterwards. -/
theorem addRequest_clears_stop_flag (s : NMState) (request : RequestTask)
    (threadAvailable tryStartOk : Bool) :
    isStopAll (NMaddRequest s request threadAvailable tryStartOk).2.2 = false := by
  by_cases h : request.urlValid = true
  · simp only [isStopAll, NMaddRequest, addRequestP, h, if_true, resetStopAllFlag_eq]
    split
    · split <;> simp [addToWaitQueue]
    · simp [addToWaitQueue]
  · simp only [Bool.not_eq_true] at h
    simp [isStopAll, NMaddRequest, addRequestP, h, resetStopAllFlag_eq]

theorem killRequestThread_state_eq (s : NMState) (uiId : Nat) :
    (killRequestThread s uiId).2.1
      = { s with mapRequestThread := (killRequestThread s uiId).2.1.mapRequestThread } := by
  by_cases h : qcontains s.mapRequestThread uiId = true <;>
    cases s <;> simp [killRequestThread, h]

/-- C2 (amended): when a batch member's success brings the finished count up
to the total count, the batch-complete signal fires, the batch reply (when
registered) receives the destroying terminal delivery, and the total-count,
finished-count and batch-reply entries are gone afterwards — but the four
byte-progress ledger maps are left untouched, so their entries for the batch
survive the batch-complete delivery; `stopBatchRequests`, by contrast,
removes all six ledger entry kinds. -/
theorem batchComplete_ledger_spec (s : NMState) (request : RequestTask)
    (hflag : s.stopAllFlag = false) (hid : request.uiId ≠ 0)
    (hb : request.uiBatchId ≠ 0) (hsucc : request.bSuccess = true)
    (hcount : qvalueD s.mapBatchFinishedSize request.uiBatchId 0 + 1
      = qvalueD s.mapBatchTotalSize request.uiBatchId 0) :
    qcontains (onRequestFinished s request).state.mapBatchTotalSize request.uiBatchId = false ∧
    qcontains (onRequestFinished s request).state.mapBatchFinishedSize request.uiBatchId = false ∧
    qcontains (onRequestFinished s request).state.mapBatchReply request.uiBatchId = false ∧
    (onRequestFinished s request).batchFinishedSignals = [request.uiBatchId] ∧
    (qcontains s.mapBatchReply request.uiBatchId = true →
      (onRequestFinished s request).events
        = [⟨ReplyTarget.batch request.uiBatchId, request, true⟩]) ∧
    (onRequestFinished s request).state.mapBatchDownloadCurrentBytes = s.mapBatchDownloadCurrentBytes ∧
    (onRequestFinished s request).state.mapBatchDownloadTotalBytes = s.mapBatchDownloadTotalBytes ∧
    (onRequestFinished s request).state.mapBatchUploadCurrentBytes = s.mapBatchUploadCurrentBytes ∧
    (onRequestFinished s request).state.mapBatchUploadTotalBytes = s.mapBatchUploadTotalBytes ∧
    (∀ (s2 : NMState) (b : Nat),
      qcontains (stopBatchRequests s2 b).1.mapBatchTotalSize b = false ∧
      qcontains (stopBatchRequests s2 b).1.mapBatchFinishedSize b = false ∧
      qcontains (stopBatchRequests s2 b).1.mapBatchDownloadCurrentBytes b = false ∧
      qcontains (stopBatchRequests s2 b).1.mapBatchDownloadTotalBytes b = false ∧
      qcontains (stopBatchRequests s2 b).1.mapBatchUploadCurrentBytes b = false ∧
      qcontains (stopBatchRequests s2 b).1.mapBatchUploadTotalBytes b = false) := by
  have hgid : (request.uiId == 0) = false := by simpa using hid
  have hbb : (request.uiBatchId == 0) = false := by simpa using hb
  have hstop : ∀ (s2 : NMState) (b : Nat),
      qcontains (stopBatchRequests s2 b).1.mapBatchTotalSize b = false ∧
      qcontains (stopBatchRequests s2 b).1.mapBatchFinishedSize b = false ∧
      qcontains (stopBatchRequests s2 b).1.mapBatchDownloadCurrentBytes b = false ∧
      qcontains (stopBatchRequests s2 b).1.mapBatchDownloadTotalBytes b = false ∧
      qcontains (stopBatchRequests s2 b).1.mapBatchUploadCurrentBytes b = false ∧
      qcontains (stopBatchRequests s2 b).1.mapBatchUploadTotalBytes b = false := by
    intro s2 b
    simp [stopBatchRequests, qcontains_qremove_self]
  simp only [onRequestFinished, finishNotify, hflag, hgid, hsucc, hbb, Bool.false_or,
    Bool.or_false, Bool.not_true, Bool.false_and, Bool.and_false, Bool.false_eq_true,
    if_false, Bool.true_or, Bool.or_true, if_true, Bool.true_and, Bool.and_true]
  rw [hcount]
  simp only [eq_self_iff_true, if_true, if_pos rfl]
  by_cases hrep : qcontains s.mapBatchReply request.uiBatchId = true
  · rw [if_pos hrep, killRequestThread_state_eq]
    simp [qcontains_qremove_self, hstop]
  · rw [if_neg hrep, killRequestThread_state_eq]
    simp only [Bool.not_eq_true] at hrep
    simp [qcontains_qremove_self, hrep, hstop]

/-- Witness for `batchComplete_ledger_spec`: the one-task batch of
`completeBatchState` completes and its total-count entry is gone. -/
theorem batchComplete_ledger_spec_witness :
    (qvalueD completeBatchState.mapBatchFinishedSize 1 0 + 1
      = qvalueD completeBatchState.mapBatchTotalSize 1 0) ∧
    qcontains (onRequestFinished completeBatchState completeBatchTask).state.mapBatchTotalSize
      completeBatchTask.uiBatchId = false :=
  ⟨by decide,
   (batchComplete_ledger_spec completeBatchState completeBatchTask rfl
      (by decide) (by decide) rfl (by decide)).1⟩

/-- C5 (confirmed): `stopAllRequest` is a no-op when the stop flag is already
set; otherwise it sets the flag, signals every registered worker thread to
quit, posts exactly one destroying cancellation to the single-task reply
stored under the greatest request id (and none when the reply map is empty),
and clears the wait queue, the Failed-Once Registry, all six batch ledger
maps, both reply maps and the thread map. -/
theorem stopAll_spec (s : NMState) :
    (s.stopAllFlag = true → stopAllRequest s = (s, [], [])) ∧
    (s.stopAllFlag = false →
      (stopAllRequest s).1.stopAllFlag = true ∧
      (stopAllRequest s).2.2 = qkeys s.mapRequestThread ∧
      (s.mapReply = [] → (stopAllRequest s).2.1 = []) ∧
      (s.mapReply ≠ [] → ∃ k, qlastKey? s.mapReply = some k ∧
        qcontains s.mapReply k = true ∧
        (stopAllRequest s).2.1 = [⟨ReplyTarget.single k, stopAllCancelTask, true⟩]) ∧
      (stopAllRequest s).2.1.length ≤ 1 ∧
      (∀ e ∈ (stopAllRequest s).2.1, e.bDestroyed = true) ∧
      (stopAllRequest s).1.queWaiting = [] ∧
      (stopAllRequest s).1.queFailed = [] ∧
      (stopAllRequest s).1.mapBatchTotalSize = [] ∧
      (stopAllRequest s).1.mapBatchFinishedSize = [] ∧
      (stopAllRequest s).1.mapBatchDownloadCurrentBytes = [] ∧
      (stopAllRequest s).1.mapBatchDownloadTotalBytes = [] ∧
      (stopAllRequest s).1.mapBatchUploadCurrentBytes = [] ∧
      (stopAllRequest s).1.mapBatchUploadTotalBytes = [] ∧
      (stopAllRequest s).1.mapReply = [] ∧
      (stopAllRequest s).1.mapBatchReply = [] ∧
      (stopAllRequest s).1.mapRequestThread = []) := by
  constructor
  · intro h; simp [stopAllRequest, h]
  · intro h
    refine ⟨?_, ?_, ?_, ?_, ?_, ?_, ?_, ?_, ?_, ?_, ?_, ?_, ?_, ?_, ?_, ?_, ?_⟩
    · simp [stopAllRequest, h]
    · simp [stopAllRequest, h]
    · intro he; simp [stopAllRequest, h, he, qlastKey?]
    · intro hne
      obtain ⟨k, hk⟩ := qlastKey?_isSome s.mapReply hne
      refine ⟨k, hk, qlastKey?_contains s.mapReply k hk, ?_⟩
      simp [stopAllRequest, h, hk]
    · cases hk : qlastKey? s.mapReply <;> simp [stopAllRequest, h, hk]
    · cases hk : qlastKey? s.mapReply <;> simp [stopAllRequest, h, hk]
    · simp [stopAllRequest, h]
    · simp [stopAllRequest, h]
    · simp [stopAllRequest, h]
    · simp [stopAllRequest, h]
    · simp [stopAllRequest, h]
    · simp [stopAllRequest, h]
    · simp [stopAllRequest, h]
    · simp [stopAllRequest, h]
    · simp [stopAllRequest, h]
    · simp [stopAllRequest, h]
    · simp [stopAllRequest, h]

/-- Witness for `stopAll_spec`: on `busyState` the stop flag becomes set and
both workers-to-quit and cleared queues are as specified; a second stop on the
resulting state is a no-op. -/
theorem stopAll_spec_witness :
    busyState.stopAllFlag = false ∧
    (stopAllRequest busyState).1.stopAllFlag = true ∧
    (stopAllRequest busyState).2.2 = qkeys busyState.mapRequestThread ∧
    ((stopAllRequest busyState).1.stopAllFlag = true →
      stopAllRequest (stopAllRequest busyState).1
        = ((stopAllRequest busyState).1, [], [])) :=
  ⟨rfl, ((stopAll_spec busyState).2 rfl).1, ((stopAll_spec busyState).2 rfl).2.1,
   fun h => (stopAll_spec (stopAllRequest busyState).1).1 h⟩

theorem qvalueD_of_not_qcontains {α : Type} (m : QMapN α) (k : Nat) (d : α)
    (h : qcontains m k = false) : qvalueD m k d = d := by
  induction m with
  | nil => rfl
  | cons p t ih =>
    simp only [qcontains, List.any_cons, Bool.or_eq_false_iff] at h
    simp only [qvalueD, List.find?, h.1]
    exact ih (by simp [qcontains, h.2])

/-- C8 (amended): a 0-byte progress report answers the batch's current
aggregate total for the requested direction (0 when the batch has no entry)
and changes nothing — except that when the batch has no running-total entry in
that direction yet, reading it through `QMap::operator[]` default-inserts a
`(b, 0)` entry into that one totals map.  A 0-byte report travelling through
`NetworkManager::updateProgress` is discarded by the `iBytes == 0` guard
before reaching the ledger at all. -/
theorem zero_report_query_spec (s : NMState) (t b : Nat) (bDownload : Bool) :
    (updateBatchProgress s t b 0 bDownload).1 = qvalueD (dirTotals s bDownload) b 0 ∧
    (qcontains (dirTotals s bDownload) b = true →
      (updateBatchProgress s t b 0 bDownload).2 = s) ∧
    (qcontains (dirTotals s bDownload) b = false →
      (updateBatchProgress s t b 0 bDownload).1 = 0 ∧
      (updateBatchProgress s t b 0 bDownload).2
        = (if bDownload then
            { s with mapBatchDownloadTotalBytes := s.mapBatchDownloadTotalBytes ++ [(b, 0)] }
           else
            { s with mapBatchUploadTotalBytes := s.mapBatchUploadTotalBytes ++ [(b, 0)] })) ∧
    dirCurrents (updateBatchProgress s t b 0 bDownload).2 bDownload = dirCurrents s bDownload ∧
    dirCurrents (updateBatchProgress s t b 0 bDownload).2 (!bDownload) = dirCurrents s (!bDownload) ∧
    dirTotals (updateBatchProgress s t b 0 bDownload).2 (!bDownload) = dirTotals s (!bDownload) ∧
    (updateBatchProgress s t b 0 bDownload).2.queWaiting = s.queWaiting ∧
    (updateBatchProgress s t b 0 bDownload).2.queFailed = s.queFailed ∧
    (updateBatchProgress s t b 0 bDownload).2.mapReply = s.mapReply ∧
    (updateBatchProgress s t b 0 bDownload).2.mapBatchReply = s.mapBatchReply ∧
    (updateBatchProgress s t b 0 bDownload).2.mapBatchTotalSize = s.mapBatchTotalSize ∧
    (updateBatchProgress s t b 0 bDownload).2.mapBatchFinishedSize = s.mapBatchFinishedSize ∧
    (∀ (iTotalBytes : Int), updateProgress s t b 0 iTotalBytes bDownload = (s, [])) := by
  cases bDownload
  · by_cases hc : qcontains s.mapBatchUploadTotalBytes b = true
    · simp [updateBatchProgress, updateProgress, dirTotals, dirCurrents, hc]
    · simp only [Bool.not_eq_true] at hc
      simp [updateBatchProgress, updateProgress, dirTotals, dirCurrents, hc,
        qvalueD_of_not_qcontains]
  · by_cases hc : qcontains s.mapBatchDownloadTotalBytes b = true
    · simp [updateBatchProgress, updateProgress, dirTotals, dirCurrents, hc]
    · simp only [Bool.not_eq_true] at hc
      simp [updateBatchProgress, updateProgress, dirTotals, dirCurrents, hc,
        qvalueD_of_not_qcontains]

/-- Witness for `zero_report_query_spec`: on the fresh state a 0-byte
download query for batch 1 answers 0 and default-inserts the `(1, 0)` entry. -/
theorem zero_report_query_spec_witness :
    qcontains (dirTotals emptyState true) 1 = false ∧
    (updateBatchProgress emptyState 1 1 0 true).1 = 0 ∧
    (updateBatchProgress emptyState 1 1 0 true).2
      = { emptyState with
          mapBatchDownloadTotalBytes := emptyState.mapBatchDownloadTotalBytes ++ [(1, 0)] } :=
  ⟨by decide, ((zero_report_query_spec emptyState 1 1 true).2.2.1 (by decide)).1,
   by simpa using ((zero_report_query_spec emptyState 1 1 true).2.2.1 (by decide)).2⟩

theorem toU64_of_nonneg (i : Int) (h0 : 0 ≤ i) (h1 : i < (U64MOD : Int)) :
    toU64 i = i.toNat := by
  unfold toU64
  rw [Int.emod_eq_of_lt h0 h1]

theorem toS64_of_lt (n : Nat) (h : n < S63) : toS64 n = (n : Int) := by
  have hU : n < U64MOD := by
    have : S63 < U64MOD := by simp only [S63, U64MOD]; omega
    omega
  unfold toS64
  simp only [Nat.mod_eq_of_lt hU, h, if_true]

theorem toS64_mod_self (tot : Int) (h0 : 0 ≤ tot) (h1 : tot < (S63 : Int)) :
    toS64 (toU64 tot % U64MOD) = tot := by
  have hS : (S63 : Int) < (U64MOD : Int) := by simp only [S63, U64MOD]; decide
  have hU : tot < (U64MOD : Int) := by omega
  rw [toU64_of_nonneg tot h0 hU]
  have hn : tot.toNat < S63 := by omega
  have hnU : tot.toNat < U64MOD := by
    have : S63 < U64MOD := by simp only [S63, U64MOD]; omega
    omega
  rw [Nat.mod_eq_of_lt hnU, toS64_of_lt _ hn]
  omega

theorem toS64_add_exact (tot : Int) (inc : Nat) (h0 : 0 ≤ tot)
    (h1 : tot + (inc : Int) < (S63 : Int)) :
    toS64 ((toU64 tot + inc) % U64MOD) = tot + (inc : Int) := by
  have hS : (S63 : Int) < (U64MOD : Int) := by simp only [S63, U64MOD]; decide
  have hU : tot < (U64MOD : Int) := by omega
  rw [toU64_of_nonneg tot h0 hU]
  have hn : tot.toNat + inc < S63 := by omega
  have hnU : tot.toNat + inc < U64MOD := by
    have : S63 < U64MOD := by simp only [S63, U64MOD]; omega
    omega
  rw [Nat.mod_eq_of_lt hnU, toS64_of_lt _ hn]
  push_cast
  omega

/-- C4 (amended): for a progress report with positive cumulative bytes `x`
addressed to the most recently allocated batch (where the source's
`value(ms_uiBatchId)` read coincides with the report's batch), with all stored
values non-negative and no 64-bit overflow, the report adds a delta ≥ 0 to the
batch aggregate — `x` when the task is unseen, `max 0 (x - last)` otherwise —
so the aggregate never decreases; the task's last-recorded value is set to `x`
unconditionally, even when `x` is smaller than the previous value, which is
why the aggregate need not equal the sum of the members' latest (or maximal)
cumulative values. -/
theorem progress_delta_spec (s : NMState) (t b : Nat) (x : Int) (bDownload : Bool)
    (hms : b = s.msBatchId) (hx : 0 < x)
    (hlast : 0 ≤ qvalueD (qvalueD (dirCurrents s bDownload) b []) t 0)
    (htot : 0 ≤ qvalueD (dirTotals s bDownload) b 0)
    (hbound : qvalueD (dirTotals s bDownload) b 0 + x < (S63 : Int)) :
    0 ≤ (if qcontains (qvalueD (dirCurrents s bDownload) b []) t then
          max 0 (x - qvalueD (qvalueD (dirCurrents s bDownload) b []) t 0) else x) ∧
    (updateBatchProgress s t b x bDownload).1
      = qvalueD (dirTotals s bDownload) b 0
        + (if qcontains (qvalueD (dirCurrents s bDownload) b []) t then
            max 0 (x - qvalueD (qvalueD (dirCurrents s bDownload) b []) t 0) else x) ∧
    qvalueD (dirTotals (updateBatchProgress s t b x bDownload).2 bDownload) b 0
      = (updateBatchProgress s t b x bDownload).1 ∧
    qvalueD (qvalueD (dirCurrents (updateBatchProgress s t b x bDownload).2 bDownload) b []) t 0
      = x ∧
    qvalueD (dirTotals s bDownload) b 0 ≤ (updateBatchProgress s t b x bDownload).1 := by
  subst hms
  have hx0 : ¬(x = 0) := by omega
  cases bDownload
  case false =>
    simp only [dirCurrents, dirTotals, Bool.false_eq_true, if_false] at hlast htot hbound ⊢
    by_cases hc : qcontains (qvalueD s.mapBatchUploadCurrentBytes s.msBatchId []) t = true
    · by_cases hgt : x > qvalueD (qvalueD s.mapBatchUploadCurrentBytes s.msBatchId []) t 0
      · have hcast : ((x - qvalueD (qvalueD s.mapBatchUploadCurrentBytes s.msBatchId []) t 0).toNat : Int)
            = x - qvalueD (qvalueD s.mapBatchUploadCurrentBytes s.msBatchId []) t 0 :=
          Int.toNat_of_nonneg (by omega)
        have key := toS64_add_exact (qvalueD s.mapBatchUploadTotalBytes s.msBatchId 0)
          ((x - qvalueD (qvalueD s.mapBatchUploadCurrentBytes s.msBatchId []) t 0).toNat)
          htot (by rw [hcast]; omega)
        simp only [updateBatchProgress, if_neg hx0, Bool.false_eq_true, if_false, hc,
          if_pos hgt, if_true, qvalueD_qinsert_self, key, hcast]
        have hmax : max 0 (x - qvalueD (qvalueD s.mapBatchUploadCurrentBytes s.msBatchId []) t 0)
            = x - qvalueD (qvalueD s.mapBatchUploadCurrentBytes s.msBatchId []) t 0 :=
          max_eq_right (by omega)
        refine ⟨by omega, by rw [hmax], by simp [qvalueD_qinsert_self],
          by simp [qvalueD_qinsert_self], by omega⟩
      · have key := toS64_mod_self (qvalueD s.mapBatchUploadTotalBytes s.msBatchId 0)
          htot (by omega)
        have hmax : max 0 (x - qvalueD (qvalueD s.mapBatchUploadCurrentBytes s.msBatchId []) t 0)
            = 0 := max_eq_left (by omega)
        simp only [updateBatchProgress, if_neg hx0, Bool.false_eq_true, if_false, if_true, hc,
          if_neg hgt, qvalueD_qinsert_self, Nat.add_zero, key, hmax]
        refine ⟨le_refl 0, by omega, by simp [qvalueD_qinsert_self],
          by simp [qvalueD_qinsert_self], by omega⟩
    · have hxU : x < (U64MOD : Int) := by
        have : (S63 : Int) < (U64MOD : Int) := by simp only [S63, U64MOD]; decide
        omega
      have hu : toU64 x = x.toNat := toU64_of_nonneg x (by omega) hxU
      have hcast : (x.toNat : Int) = x := Int.toNat_of_nonneg (by omega)
      have key := toS64_add_exact (qvalueD s.mapBatchUploadTotalBytes s.msBatchId 0)
        x.toNat htot (by rw [hcast]; omega)
      simp only [Bool.not_eq_true] at hc
      simp only [updateBatchProgress, if_neg hx0, Bool.false_eq_true, if_false, hc,
        qvalueD_qinsert_self, hu, key, hcast]
      refine ⟨by omega, trivial, trivial, trivial, by omega⟩
  case true =>
    simp only [dirCurrents, dirTotals, if_true] at hlast htot hbound ⊢
    by_cases hc : qcontains (qvalueD s.mapBatchDownloadCurrentBytes s.msBatchId []) t = true
    · by_cases hgt : x > qvalueD (qvalueD s.mapBatchDownloadCurrentBytes s.msBatchId []) t 0
      · have hcast : ((x - qvalueD (qvalueD s.mapBatchDownloadCurrentBytes s.msBatchId []) t 0).toNat : Int)
            = x - qvalueD (qvalueD s.mapBatchDownloadCurrentBytes s.msBatchId []) t 0 :=
          Int.toNat_of_nonneg (by omega)
        have key := toS64_add_exact (qvalueD s.mapBatchDownloadTotalBytes s.msBatchId 0)
          ((x - qvalueD (qvalueD s.mapBatchDownloadCurrentBytes s.msBatchId []) t 0).toNat)
          htot (by rw [hcast]; omega)
        simp only [updateBatchProgress, if_neg hx0, if_true, hc, if_pos hgt,
          qvalueD_qinsert_self, key, hcast]
        have hmax : max 0 (x - qvalueD (qvalueD s.mapBatchDownloadCurrentBytes s.msBatchId []) t 0)
            = x - qvalueD (qvalueD s.mapBatchDownloadCurrentBytes s.msBatchId []) t 0 :=
          max_eq_right (by omega)
        refine ⟨by omega, by rw [hmax], by simp [qvalueD_qinsert_self],
          by simp [qvalueD_qinsert_self], by omega⟩
      · have key := toS64_mod_self (qvalueD s.mapBatchDownloadTotalBytes s.msBatchId 0)
          htot (by omega)
        have hmax : max 0 (x - qvalueD (qvalueD s.mapBatchDownloadCurrentBytes s.msBatchId []) t 0)
            = 0 := max_eq_left (by omega)
        simp only [updateBatchProgress, if_neg hx0, if_true, hc, if_neg hgt,
          qvalueD_qinsert_self, Nat.add_zero, key, hmax]
        refine ⟨le_refl 0, by omega, by simp [qvalueD_qinsert_self],
          by simp [qvalueD_qinsert_self], by omega⟩
    · have hxU : x < (U64MOD : Int) := by
        have : (S63 : Int) < (U64MOD : Int) := by simp only [S63, U64MOD]; decide
        omega
      have hu : toU64 x = x.toNat := toU64_of_nonneg x (by omega) hxU
      have hcast : (x.toNat : Int) = x := Int.toNat_of_nonneg (by omega)
      have key := toS64_add_exact (qvalueD s.mapBatchDownloadTotalBytes s.msBatchId 0)
        x.toNat htot (by rw [hcast]; omega)
      simp only [Bool.not_eq_true] at hc
      simp only [updateBatchProgress, if_neg hx0, if_true, hc, Bool.false_eq_true, if_false,
        qvalueD_qinsert_self, hu, key, hcast]
      refine ⟨by omega, trivial, trivial, trivial, by omega⟩

/-- Witness for `progress_delta_spec`: the first 100-byte download report for
task 1 of the sole batch does not decrease the aggregate. -/
theorem progress_delta_spec_witness :
    (0:Int) < 100 ∧
    qvalueD (dirTotals singleBatchState true) 1 0
      ≤ (updateBatchProgress singleBatchState 1 1 100 true).1 :=
  ⟨by decide,
   (progress_delta_spec singleBatchState 1 1 100 true rfl (by decide)
      (by decide) (by decide) (by decide)).2.2.2.2⟩

theorem finishNotify_state_fields (s1 : NMState) (request : RequestTask) (bNotify : Bool) :
    (finishNotify s1 request bNotify).1.stopAllFlag = s1.stopAllFlag ∧
    (finishNotify s1 request bNotify).1.queWaiting = s1.queWaiting ∧
    (finishNotify s1 request bNotify).1.queFailed = s1.queFailed ∧
    (finishNotify s1 request bNotify).1.mapRequestThread = s1.mapRequestThread := by
  simp only [finishNotify]
  repeat' split
  all_goals simp

theorem onRequestFinished_stopAllFlag (s : NMState) (request : RequestTask) :
    (onRequestFinished s request).state.stopAllFlag = s.stopAllFlag := by
  simp only [onRequestFinished]
  split
  · rfl
  · rw [killRequestThread_state_eq]
    dsimp only
    split
    · simp only [stopBatchRequests]
      rw [(finishNotify_state_fields _ _ _).1]
      split <;> simp [addToWaitQueue]
    · rw [(finishNotify_state_fields _ _ _).1]
      split <;> simp [addToWaitQueue]

/-- C3 (amended): on a failure completion, when the retry flag is set and the
Failed-Once Registry does not yet hold the id, the id is recorded and the task
re-enqueued with no caller notification — unless the task also carries the
abort-batch flag and belongs to a batch, in which case the batch-abort step
additionally stops the whole batch: the just-re-enqueued task is erased from
the wait queue again and the registered batch reply receives one destroying
cancellation.  In every other failure case the failure is terminal: the
registry is unchanged and one failing notification is routed to the owning
reply handle when it is registered (destroying for single tasks, with
destroying-ness given by the abort flag for batch tasks), and none otherwise.
Because the retry path records the id, a second failure of the same task is
terminal, and a retry-disabled task is terminal on its first failure.  The
stop flag is never altered, so these two steps compose. -/
theorem retry_policy_spec (s : NMState) (request : RequestTask)
    (hflag : s.stopAllFlag = false) (hid : request.uiId ≠ 0)
    (hfail : request.bSuccess = false) :
    (request.bTryAgainWhileFailed = true →
      qcontains s.queFailed request.uiId = false →
      (qcontains (onRequestFinished s request).state.queFailed request.uiId = true ∧
       ((request.uiBatchId = 0 ∨ request.bAbortBatchWhileOneFailed = false) →
         (onRequestFinished s request).state.queWaiting = s.queWaiting ++ [request] ∧
         (onRequestFinished s request).events = []) ∧
       (request.uiBatchId ≠ 0 → request.bAbortBatchWhileOneFailed = true →
         (onRequestFinished s request).state.queWaiting
           = (s.queWaiting ++ [request]).filter
               (fun tk => !(tk.uiBatchId == request.uiBatchId)) ∧
         (onRequestFinished s request).events
           = (if qcontains s.mapBatchReply request.uiBatchId then
               [⟨ReplyTarget.batch request.uiBatchId,
                 { uiBatchId := request.uiBatchId, bSuccess := false,
                   bytesContent := "Operation canceled (Batch id: "
                     ++ toString request.uiBatchId ++ ")" }, true⟩]
              else [])))) ∧
    ((request.bTryAgainWhileFailed = false ∨ qcontains s.queFailed request.uiId = true) →
      ((onRequestFinished s request).state.queFailed = s.queFailed ∧
       (request.uiBatchId = 0 →
         (onRequestFinished s request).state.queWaiting = s.queWaiting ∧
         (onRequestFinished s request).events
           = (if qcontains s.mapReply request.uiId then
               [⟨ReplyTarget.single request.uiId, request, true⟩] else [])) ∧
       (request.uiBatchId ≠ 0 →
         (onRequestFinished s request).events
           = (if qcontains s.mapBatchReply request.uiBatchId then
               [⟨ReplyTarget.batch request.uiBatchId, request,
                 request.bAbortBatchWhileOneFailed⟩] else [])))) ∧
    (onRequestFinished s request).state.stopAllFlag = s.stopAllFlag := by
  have hgid : (request.uiId == 0) = false := by simpa using hid
  refine ⟨?_, ?_, onRequestFinished_stopAllFlag s request⟩
  · intro hr hcf
    simp only [onRequestFinished, finishNotify, hflag, hgid, hfail, hr, hcf,
      Bool.not_false, Bool.not_true, Bool.false_or, Bool.or_false, Bool.true_and,
      Bool.and_true, Bool.and_self, Bool.false_eq_true, if_false, if_true]
    refine ⟨?_, ?_, ?_⟩
    · rw [killRequestThread_state_eq]
      dsimp only
      split
      · simp [stopBatchRequests, addToWaitQueue, qcontains_qinsert_self]
      · simp [addToWaitQueue, qcontains_qinsert_self]
    · intro hno
      have hcond : (!(request.uiBatchId == 0) && request.bAbortBatchWhileOneFailed) = false := by
        rcases hno with h0 | hab
        · have : (request.uiBatchId == 0) = true := by simpa using h0
          simp [this]
        · simp [hab]
      rw [if_neg (by simp [hcond])]
      rw [killRequestThread_state_eq]
      dsimp only
      simp [addToWaitQueue]
    · intro hbne habort
      have hbb : (request.uiBatchId == 0) = false := by simpa using hbne
      have hcond : (!(request.uiBatchId == 0) && request.bAbortBatchWhileOneFailed) = true := by
        simp [hbb, habort]
      rw [if_pos (by simp [hcond])]
      rw [killRequestThread_state_eq]
      dsimp only
      simp [stopBatchRequests, addToWaitQueue]
  · intro hterm
    have hret2 : (request.bTryAgainWhileFailed && !(qcontains s.queFailed request.uiId))
        = false := by
      rcases hterm with h | h <;> simp [h]
    simp only [onRequestFinished, hflag, hgid, hfail, hret2, Bool.not_false, Bool.not_true,
      Bool.false_or, Bool.or_false, Bool.true_and, Bool.and_true, Bool.false_eq_true,
      if_false, if_true]
    refine ⟨?_, ?_, ?_⟩
    · rw [killRequestThread_state_eq]
      dsimp only
      split
      · simp only [stopBatchRequests]
        exact (finishNotify_state_fields s request true).2.2.1
      · exact (finishNotify_state_fields s request true).2.2.1
    · intro hb0
      have hbb : (request.uiBatchId == 0) = true := by simpa using hb0
      have hcond : (!(request.uiBatchId == 0) && request.bAbortBatchWhileOneFailed) = false := by
        simp [hbb]
      rw [if_neg (by simp [hcond])]
      by_cases hrep : qcontains s.mapReply request.uiId = true
      · simp only [finishNotify, hbb, hfail, if_true, hrep, Bool.false_eq_true, if_false]
        rw [killRequestThread_state_eq]
        dsimp only
        simp [hrep]
      · simp only [Bool.not_eq_true] at hrep
        simp only [finishNotify, hbb, hfail, if_true, hrep, Bool.false_eq_true, if_false]
        rw [killRequestThread_state_eq]
        dsimp only
        simp [hrep]
    · intro hbne
      have hbb : (request.uiBatchId == 0) = false := by simpa using hbne
      by_cases habort : request.bAbortBatchWhileOneFailed = true
      · have hcond : (!(request.uiBatchId == 0) && request.bAbortBatchWhileOneFailed) = true := by
          simp [hbb, habort]
        rw [if_pos (by simp [hcond])]
        by_cases hrep : qcontains s.mapBatchReply request.uiBatchId = true
        · simp only [finishNotify, hbb, hfail, habort, Bool.false_eq_true, if_false, if_true,
            hrep]
          simp [stopBatchRequests, qcontains_qremove_self, hrep, habort]
        · simp only [Bool.not_eq_true] at hrep
          simp only [finishNotify, hbb, hfail, habort, Bool.false_eq_true, if_false, if_true,
            hrep]
          simp [stopBatchRequests, hrep, habort]
      · simp only [Bool.not_eq_true] at habort
        have hcond : (!(request.uiBatchId == 0) && request.bAbortBatchWhileOneFailed) = false := by
          simp [habort]
        rw [if_neg (by simp [hcond])]
        by_cases hrep : qcontains s.mapBatchReply request.uiBatchId = true
        · simp only [finishNotify, hbb, hfail, habort, Bool.false_eq_true, if_false, if_true,
            hrep]
          simp [hrep, habort]
        · simp only [Bool.not_eq_true] at hrep
          simp only [finishNotify, hbb, hfail, habort, Bool.false_eq_true, if_false, if_true,
            hrep]
          simp [hrep, habort]

/-- Witness for `retry_policy_spec`: the first failure of the retry-enabled
task records its id in the Failed-Once Registry. -/
theorem retry_policy_spec_witness :
    retryAbortTask.bSuccess = false ∧ retryAbortTask.bTryAgainWhileFailed = true ∧
    qcontains retryAbortState.queFailed retryAbortTask.uiId = false ∧
    qcontains (onRequestFinished retryAbortState retryAbortTask).state.queFailed
      retryAbortTask.uiId = true :=
  ⟨rfl, rfl, by decide,
   ((retry_policy_spec retryAbortState retryAbortTask rfl (by decide) rfl).1
      rfl (by decide)).1⟩

end NetMgr
